import Mathlib

set_option maxHeartbeats 1000000
set_option maxRecDepth 100000

namespace SanitizeAI

instance {ε α : Type} [DecidableEq ε] [DecidableEq α] : DecidableEq (Except ε α) := fun a b =>
  match a, b with
  | Except.error e, Except.error f =>
      decidable_of_iff (e = f) ⟨fun h => by rw [h], fun h => by injection h⟩
  | Except.error _, Except.ok _ => isFalse fun h => by injection h
  | Except.ok _, Except.error _ => isFalse fun h => by injection h
  | Except.ok a, Except.ok b =>
      decidable_of_iff (a = b) ⟨fun h => by rw [h], fun h => by injection h⟩

/-- JS truthiness fallback `a || b` for a possibly-undefined string value:
`undefined` (modelled as `none`) and the empty string are falsy and select
the fallback. -/
def jsOr (o : Option String) (d : String) : String :=
  match o with
  | none => d
  | some s => if s = "" then d else s

/-- Symbolic representation of the zod schemas attached to the tools in
src/mcp/server.ts: an object schema is the list of its string-typed field
names. -/
inductive ZodSchema where
  | objectOf (fields : List String)
  deriving DecidableEq

/-- Tool record from src/mcp/types.ts. -/
structure Tool where
  name : String
  description : String
  inputSchema : ZodSchema
  outputSchema : ZodSchema
  deriving DecidableEq

/-- Descriptor shape returned by the tools/list branch of
McpLikeServer.handleRequest: the four data fields of a tool. -/
structure ToolDescriptor where
  name : String
  description : String
  inputSchema : ZodSchema
  outputSchema : ZodSchema
  deriving DecidableEq

/-- The per-tool mapping performed inside the tools/list branch. -/
def Tool.descriptor (t : Tool) : ToolDescriptor :=
  { name := t.name, description := t.description,
    inputSchema := t.inputSchema, outputSchema := t.outputSchema }

/-- ToolResult from src/mcp/types.ts. -/
structure ToolResult where
  sanitizedText : String
  deriving DecidableEq

structure McpError where
  code : Int
  message : String
  deriving DecidableEq

/-- Payloads appearing in the result field of an McpResponse (typed `any` in
src/mcp/types.ts; the server only ever produces these two shapes). -/
inductive McpResult where
  | toolsList (tools : List ToolDescriptor)
  | toolResult (r : ToolResult)
  deriving DecidableEq

/-- McpResponse from src/mcp/types.ts: both fields optional at the type
level; which combinations actually occur is proved, not assumed. -/
structure McpResponse where
  result : Option McpResult
  error : Option McpError
  deriving DecidableEq

/-- The arguments object of a tools/call request (wire shape
`arguments = object with a text field`). -/
structure CallArguments where
  text : String
  deriving DecidableEq

/-- Params of an McpRequest. The tools/list branch ignores them; the
tools/call branch destructures name, arguments and provider, the latter
defaulting to openai when undefined (`none`). -/
structure CallParams where
  name : String
  arguments : CallArguments
  provider : Option String
  deriving DecidableEq

/-- McpRequest from src/mcp/types.ts. -/
structure McpRequest where
  method : String
  params : CallParams
  deriving DecidableEq

/-- One chat message as passed to the generation capabilities. -/
structure ChatMsg where
  role : String
  content : String
  deriving DecidableEq

/-- The observable part of an outbound openai.chat.completions.create
request: model name and messages (fixed sampling parameters elided). -/
structure OpenAiReq where
  model : String
  messages : List ChatMsg
  deriving DecidableEq

/-- function field of a tool call in a chat completion response. -/
structure OaFnCall where
  name : String
  arguments : String
  deriving DecidableEq

structure OaToolCall where
  function : OaFnCall
  deriving DecidableEq

/-- message field of a chat completion choice. An absent tool_calls array is
modelled as the empty list: the code only reads it through the
optional-chain-and-index pattern, which cannot distinguish the two. -/
structure ChatChoiceMsg where
  content : Option String
  tool_calls : List OaToolCall
  deriving DecidableEq

structure ChatChoice where
  message : ChatChoiceMsg
  deriving DecidableEq

/-- Chat completion response shape, shared by ModelManager.generateText and
the tool-selection call in the flow. -/
structure ChatCompletion where
  choices : List ChatChoice
  deriving DecidableEq

/-- Environment of external generation capabilities for the server side:
whether each provider client was constructed (API key present), and the
providers themselves as oracles from request to outcome. -/
structure GenEnv where
  openaiConfigured : Bool
  geminiConfigured : Bool
  openaiChat : OpenAiReq → Except String ChatCompletion
  geminiGenerate : String → Except String String

/-- Observable side effects of request handling: entry into the executor and
each outbound generation call. -/
inductive ExecEvent where
  | executorInvoked (toolName : String) (provider : String)
  | openaiCall (req : OpenAiReq)
  | geminiCall (prompt : String)
  deriving DecidableEq

/-- ModelManager.generateText (src/lib/models.ts): prepend the system prompt
when present, branch on the provider string, make one call, and for openai
extract `choices[0]?.message?.content || the empty string`. Returns the
outcome together with the list of outbound generation calls made. -/
def generateText (env : GenEnv) (provider : String) (messages : List ChatMsg)
    (systemPrompt : Option String) : Except String String × List ExecEvent :=
  let fullMessages :=
    match systemPrompt with
    | some sp => { role := "system", content := sp } :: messages
    | none => messages
  if provider = "openai" then
    if env.openaiConfigured = false then
      (Except.error "OpenAI not configured", [])
    else
      let req : OpenAiReq := { model := "gpt-3.5-turbo", messages := fullMessages }
      ((match env.openaiChat req with
        | Except.error e => Except.error e
        | Except.ok resp =>
            Except.ok (jsOr (resp.choices.head?.bind fun c => c.message.content) "")),
       [ExecEvent.openaiCall req])
  else if provider = "gemini" then
    if env.geminiConfigured = false then
      (Except.error "Gemini not configured", [])
    else
      let geminiPrompt := String.intercalate "\n\n" (fullMessages.map fun m =>
        (if m.role = "system" then "System" else "User") ++ ": " ++ m.content)
      (env.geminiGenerate geminiPrompt, [ExecEvent.geminiCall geminiPrompt])
  else
    (Except.error ("Unknown provider: " ++ provider), [])

def anonymizePiiPrompt : String :=
  "You are a PII anonymiser. Replace all personally identifiable information with appropriate placeholders while maintaining the structure and readability of the text. Return only the anonymised text."

def redactFinancialPrompt : String :=
  "You are a financial-data redactor. Replace all financial information like bank account numbers, credit card numbers, IBANs, crypto wallet addresses, and sort codes with appropriate placeholders while maintaining the structure and readability of the text. Return only the redacted text."

def redactMedicalPrompt : String :=
  "You are a medical data redactor. Replace all medical information like patient IDs, medical record numbers, diagnoses, medications, and other sensitive health information with appropriate placeholders while maintaining the structure and readability of the text. Return only the redacted text."

def generalSanitizePrompt : String :=
  "You are a general data sanitizer. Replace any sensitive or confidential information with appropriate placeholders while maintaining the structure and readability of the text. This includes but is not limited to names, addresses, phone numbers, emails, IDs, and other personally identifiable information. Return only the sanitized text."

/-- The static systemPrompts record inside McpLikeServer.executeTool. -/
def systemPrompts : List (String × String) :=
  [("anonymize_pii", anonymizePiiPrompt),
   ("redact_financial", redactFinancialPrompt),
   ("redact_medical", redactMedicalPrompt),
   ("general_sanitize", generalSanitizePrompt)]

/-- `systemPrompts[tool.name] || systemPrompts[general_sanitize]`:
the instruction for the named tool, falling back to the general one. -/
def resolveSystemPrompt (toolName : String) : String :=
  jsOr (systemPrompts.lookup toolName) generalSanitizePrompt

/-- McpLikeServer.executeTool (src/mcp/server.ts): resolve the fixed system
instruction for the tool and make a single generateText call with the user
text. The trace additionally records entry into the executor. -/
def executeTool (env : GenEnv) (tool : Tool) (args : CallArguments)
    (provider : String) : Except String ToolResult × List ExecEvent :=
  let systemPrompt := resolveSystemPrompt tool.name
  let gen := generateText env provider
    [{ role := "user", content := args.text }] (some systemPrompt)
  ((match gen.1 with
    | Except.error e => Except.error e
    | Except.ok t => Except.ok { sanitizedText := t }),
   ExecEvent.executorInvoked tool.name provider :: gen.2)

/-- McpLikeServer.handleRequest (src/mcp/server.ts): switch on the method;
tools/list maps the registry to descriptors; tools/call looks the tool up,
answering code -32601 when absent and otherwise delegating to the executor;
any other method answers code -32601; a failure thrown by the executor is
caught and wrapped as code -32603 with
`error.message || the Internal error fallback`. -/
def handleRequest (env : GenEnv) (tools : List Tool) (request : McpRequest) :
    McpResponse × List ExecEvent :=
  if request.method = "tools/list" then
    ({ result := some (McpResult.toolsList (tools.map Tool.descriptor)),
       error := none }, [])
  else if request.method = "tools/call" then
    let name := request.params.name
    let provider := request.params.provider.getD "openai"
    match tools.find? (fun t => t.name == name) with
    | none =>
        ({ result := none,
           error := some { code := -32601,
                           message := "Tool \x27" ++ name ++ "\x27 not found" } }, [])
    | some tool =>
        let exec := executeTool env tool request.params.arguments provider
        ((match exec.1 with
          | Except.ok r => { result := some (McpResult.toolResult r), error := none }
          | Except.error e =>
              { result := none,
                error := some { code := -32603,
                                message := jsOr (some e) "Internal error" } }),
         exec.2)
  else
    ({ result := none,
       error := some { code := -32601,
                       message := "Method \x27" ++ request.method ++ "\x27 not found" } }, [])

/-- McpLikeServer.addTool: push the tool onto the end of the array. -/
def addTool (tools : List Tool) (tool : Tool) : List Tool := tools ++ [tool]

/-- Server registry state after a sequence of addTool calls on a fresh
server. -/
def registerAll (ts : List Tool) : List Tool := ts.foldl addTool []

def anonymizePiiTool : Tool :=
  { name := "anonymize_pii",
    description := "Anonymises names, emails, phone numbers, addresses, dates of birth, etc.",
    inputSchema := ZodSchema.objectOf ["text"],
    outputSchema := ZodSchema.objectOf ["sanitizedText"] }

def redactFinancialTool : Tool :=
  { name := "redact_financial",
    description := "Redacts IBAN, credit-card numbers, crypto wallets, sort codes, etc.",
    inputSchema := ZodSchema.objectOf ["text"],
    outputSchema := ZodSchema.objectOf ["sanitizedText"] }

def redactMedicalTool : Tool :=
  { name := "redact_medical",
    description := "Redacts medical record numbers, patient IDs, diagnoses, medications, etc.",
    inputSchema := ZodSchema.objectOf ["text"],
    outputSchema := ZodSchema.objectOf ["sanitizedText"] }

def generalSanitizeTool : Tool :=
  { name := "general_sanitize",
    description := "General sanitization for any sensitive information",
    inputSchema := ZodSchema.objectOf ["text"],
    outputSchema := ZodSchema.objectOf ["sanitizedText"] }

/-- The four tools registered at server startup, in source order. -/
def registeredTools : List Tool :=
  registerAll [anonymizePiiTool, redactFinancialTool, redactMedicalTool, generalSanitizeTool]

/-- Stub generation environment whose calls always succeed. -/
def stubChatCompletion : ChatCompletion :=
  { choices := [{ message := { content := some "SANITIZED", tool_calls := [] } }] }

def stubGenEnv : GenEnv :=
  { openaiConfigured := true, geminiConfigured := true,
    openaiChat := fun _ => Except.ok stubChatCompletion,
    geminiGenerate := fun _ => Except.ok "GEMINI" }

/-- Stub generation environment whose openai calls fail with a fixed
message. -/
def failingGenEnv : GenEnv :=
  { openaiConfigured := true, geminiConfigured := true,
    openaiChat := fun _ => Except.error "generation backend failure",
    geminiGenerate := fun _ => Except.error "generation backend failure" }

/-- A response carries exactly one of result or error. -/
def exactlyOneOf (r : McpResponse) : Bool := r.result.isSome ^^ r.error.isSome

/-- Claim C1: a tools/call request naming a tool absent from the registry is
answered with the tool-not-found error (code -32601, message naming the
tool) and the executor is never invoked: the execution trace is empty, so in
particular no generation call is made, and the whole outcome is independent
of the generation environment. -/
theorem claim_c1_unknown_tool (env : GenEnv) (tools : List Tool) (p : CallParams)
    (h : tools.find? (fun t => t.name == p.name) = none) :
    handleRequest env tools { method := "tools/call", params := p } =
      ({ result := none,
         error := some { code := -32601,
                         message := "Tool \x27" ++ p.name ++ "\x27 not found" } }, []) := by
  simp [handleRequest, h]

theorem claim_c1_witness :
    handleRequest stubGenEnv registeredTools
        { method := "tools/call",
          params := { name := "no_such_tool", arguments := { text := "hi" }, provider := none } } =
      ({ result := none,
         error := some { code := -32601,
                         message := "Tool \x27no_such_tool\x27 not found" } }, []) :=
  claim_c1_unknown_tool stubGenEnv registeredTools
    { name := "no_such_tool", arguments := { text := "hi" }, provider := none }
    (by decide)

/-- Stub generation environment whose openai calls fail with an empty
message (a thrown failure carrying no message text). -/
def emptyFailGenEnv : GenEnv :=
  { openaiConfigured := true, geminiConfigured := true,
    openaiChat := fun _ => Except.error "",
    geminiGenerate := fun _ => Except.error "" }

/-- Claim C2 counterexample: a failure whose message is empty is caught and
wrapped as code -32603, but its message is not preserved: the response
carries the fixed Internal error text instead of the empty failure
message, because the source substitutes it through the || fallback. -/
theorem claim_c2_counterexample :
    ((executeTool emptyFailGenEnv anonymizePiiTool { text := "hi" } "openai").1 =
      Except.error "")
    ∧ ((handleRequest emptyFailGenEnv registeredTools
        { method := "tools/call",
          params := { name := "anonymize_pii", arguments := { text := "hi" },
                      provider := none } }).1.error =
        some { code := -32603, message := "Internal error" })
    ∧ ("Internal error" ≠ "") := by
  refine ⟨rfl, by decide, by decide⟩

/-- Claim C2 (amended): every response of handleRequest carries exactly one
of result or error, and a failure raised inside the executor (hence also
inside the generation capability) on a tools/call request never propagates:
it is caught and wrapped as an internal error, code -32603, whose message
is exactly the failure message whenever that message is nonempty, and the
fixed Internal error text when the failure carries an empty message. -/
theorem claim_c2_single_outcome (env : GenEnv) (tools : List Tool) (request : McpRequest) :
    exactlyOneOf (handleRequest env tools request).1 = true
    ∧ (∀ tool msg, request.method = "tools/call" →
        tools.find? (fun t => t.name == request.params.name) = some tool →
        (executeTool env tool request.params.arguments
          (request.params.provider.getD "openai")).1 = Except.error msg →
        msg ≠ "" →
        (handleRequest env tools request).1 =
          { result := none, error := some { code := -32603, message := msg } })
    ∧ (∀ tool, request.method = "tools/call" →
        tools.find? (fun t => t.name == request.params.name) = some tool →
        (executeTool env tool request.params.arguments
          (request.params.provider.getD "openai")).1 = Except.error "" →
        (handleRequest env tools request).1 =
          { result := none,
            error := some { code := -32603, message := "Internal error" } }) := by
  refine ⟨?_, ?_, ?_⟩
  · by_cases h1 : request.method = "tools/list"
    · simp [handleRequest, h1, exactlyOneOf]
    · by_cases h2 : request.method = "tools/call"
      · rcases hf : tools.find? (fun t => t.name == request.params.name) with _ | tool
        · simp [handleRequest, h1, h2, hf, exactlyOneOf]
        · rcases hx : (executeTool env tool request.params.arguments
              (request.params.provider.getD "openai")).1 with e | r
          · simp [handleRequest, h1, h2, hf, hx, exactlyOneOf]
          · simp [handleRequest, h1, h2, hf, hx, exactlyOneOf]
      · simp [handleRequest, h1, h2, exactlyOneOf]
  · intro tool msg hm hf he hne
    have hm1 : ¬ request.method = "tools/list" := by
      rw [hm]; decide
    simp only [handleRequest, hm1, if_false, hm, if_pos, if_true, hf]
    simp [he, jsOr, hne]
  · intro tool hm hf he
    have hm1 : ¬ request.method = "tools/list" := by
      rw [hm]; decide
    simp only [handleRequest, hm1, if_false, hm, if_pos, if_true, hf]
    simp [he, jsOr]

theorem claim_c2_witness :
    exactlyOneOf (handleRequest failingGenEnv registeredTools
        { method := "tools/call",
          params := { name := "anonymize_pii", arguments := { text := "hi" }, provider := none } }).1 = true
    ∧ (handleRequest failingGenEnv registeredTools
        { method := "tools/call",
          params := { name := "anonymize_pii", arguments := { text := "hi" }, provider := none } }).1 =
        { result := none,
          error := some { code := -32603, message := "generation backend failure" } } := by
  refine ⟨(claim_c2_single_outcome failingGenEnv registeredTools _).1, ?_⟩
  exact (claim_c2_single_outcome failingGenEnv registeredTools
      { method := "tools/call",
        params := { name := "anonymize_pii", arguments := { text := "hi" }, provider := none } }).2.1
    anonymizePiiTool "generation backend failure" rfl (by decide) rfl (by decide)

/-- Names listed by a tools/list response. -/
def listedNames (r : McpResponse) : List String :=
  match r.result with
  | some (McpResult.toolsList ds) => ds.map ToolDescriptor.name
  | _ => []

/-- Claim C4 counterexample: on the running server registry, the
tool-not-found response and the method-not-found response carry the same
numeric code -32601, so the three error codes are not pairwise distinct. -/
theorem claim_c4_counterexample :
    ((handleRequest stubGenEnv registeredTools
        { method := "tools/call",
          params := { name := "no_such_tool", arguments := { text := "x" }, provider := none } }).1.error.map
      McpError.code = some (-32601))
    ∧ ((handleRequest stubGenEnv registeredTools
        { method := "bogus/method",
          params := { name := "anonymize_pii", arguments := { text := "x" }, provider := none } }).1.error.map
      McpError.code = some (-32601)) := by
  decide

/-- Claim C4 (amended): the tool-not-found and method-not-found outcomes
share the numeric code -32601 and are distinguished only by message, while
the internal-error outcome uses -32603, which is distinct from -32601. -/
theorem claim_c4_error_codes (env : GenEnv) (tools : List Tool) (p q : CallParams)
    (m : String) (tool : Tool) (msg : String)
    (htool : tools.find? (fun t => t.name == p.name) = none)
    (hm1 : m ≠ "tools/list") (hm2 : m ≠ "tools/call")
    (hq : tools.find? (fun t => t.name == q.name) = some tool)
    (hexec : (executeTool env tool q.arguments (q.provider.getD "openai")).1 = Except.error msg) :
    ((handleRequest env tools { method := "tools/call", params := p }).1.error.map McpError.code
      = some (-32601))
    ∧ ((handleRequest env tools { method := m, params := p }).1.error.map McpError.code
      = some (-32601))
    ∧ ((handleRequest env tools { method := "tools/call", params := q }).1.error.map McpError.code
      = some (-32603))
    ∧ ((-32603 : Int) ≠ -32601) := by
  refine ⟨?_, ?_, ?_, by decide⟩
  · simp [handleRequest, htool]
  · simp [handleRequest, hm1, hm2]
  · simp [handleRequest, hq, hexec]

theorem claim_c4_witness :
    ((handleRequest failingGenEnv registeredTools
        { method := "tools/call",
          params := { name := "no_such_tool", arguments := { text := "x" }, provider := none } }).1.error.map
      McpError.code = some (-32601))
    ∧ ((handleRequest failingGenEnv registeredTools
        { method := "bogus/method",
          params := { name := "no_such_tool", arguments := { text := "x" }, provider := none } }).1.error.map
      McpError.code = some (-32601))
    ∧ ((handleRequest failingGenEnv registeredTools
        { method := "tools/call",
          params := { name := "anonymize_pii", arguments := { text := "x" }, provider := none } }).1.error.map
      McpError.code = some (-32603))
    ∧ ((-32603 : Int) ≠ -32601) :=
  claim_c4_error_codes failingGenEnv registeredTools
    { name := "no_such_tool", arguments := { text := "x" }, provider := none }
    { name := "anonymize_pii", arguments := { text := "x" }, provider := none }
    "bogus/method" anonymizePiiTool "generation backend failure"
    (by decide) (by decide) (by decide) (by decide) rfl

/-- Registering tools one by one onto a fresh server yields exactly the
registration list. -/
theorem registerAll_eq (ts : List Tool) : registerAll ts = ts := by
  have h : ∀ (acc : List Tool), ts.foldl addTool acc = acc ++ ts := by
    induction ts with
    | nil => intro acc; simp
    | cons t ts ih => intro acc; simp [addTool, ih]
  simpa [registerAll] using h []

/-- Claim C6 counterexample: registering the same tool name twice makes the
tools/list response contain two descriptors with that name, so the listed
name fields are not duplicate-free for every register sequence. -/
theorem claim_c6_counterexample :
    (listedNames (handleRequest stubGenEnv (registerAll [anonymizePiiTool, anonymizePiiTool])
        { method := "tools/list",
          params := { name := "", arguments := { text := "" }, provider := none } }).1
      = ["anonymize_pii", "anonymize_pii"])
    ∧ ¬ (listedNames (handleRequest stubGenEnv (registerAll [anonymizePiiTool, anonymizePiiTool])
        { method := "tools/list",
          params := { name := "", arguments := { text := "" }, provider := none } }).1).Nodup := by
  decide

/-- Claim C6 (amended): for every sequence of register calls with pairwise
distinct names, tools/list answers one descriptor per registered tool, in
registration order, and the listed names are exactly the registered names
with no additions, omissions or duplicates; the response is a pure function
of the registry, which tools/list does not modify, so repeated calls return
the identical list. -/
theorem claim_c6_list_roundtrip (env : GenEnv) (ts : List Tool) (p : CallParams)
    (h : (ts.map Tool.name).Nodup) :
    ((handleRequest env (registerAll ts) { method := "tools/list", params := p }).1.result
      = some (McpResult.toolsList (ts.map Tool.descriptor)))
    ∧ (listedNames (handleRequest env (registerAll ts)
        { method := "tools/list", params := p }).1 = ts.map Tool.name)
    ∧ (listedNames (handleRequest env (registerAll ts)
        { method := "tools/list", params := p }).1).Nodup := by
  have hreg : registerAll ts = ts := registerAll_eq ts
  refine ⟨?_, ?_, ?_⟩
  · simp [handleRequest, hreg]
  · simp [handleRequest, hreg, listedNames, Tool.descriptor, Function.comp]
  · simpa [handleRequest, hreg, listedNames, Tool.descriptor, Function.comp] using h

theorem claim_c6_witness :
    ((handleRequest stubGenEnv (registerAll [anonymizePiiTool, redactFinancialTool, redactMedicalTool, generalSanitizeTool])
        { method := "tools/list",
          params := { name := "", arguments := { text := "" }, provider := none } }).1.result
      = some (McpResult.toolsList ([anonymizePiiTool, redactFinancialTool, redactMedicalTool, generalSanitizeTool].map Tool.descriptor)))
    ∧ (listedNames (handleRequest stubGenEnv (registerAll [anonymizePiiTool, redactFinancialTool, redactMedicalTool, generalSanitizeTool])
        { method := "tools/list",
          params := { name := "", arguments := { text := "" }, provider := none } }).1
      = ["anonymize_pii", "redact_financial", "redact_medical", "general_sanitize"])
    ∧ (listedNames (handleRequest stubGenEnv (registerAll [anonymizePiiTool, redactFinancialTool, redactMedicalTool, generalSanitizeTool])
        { method := "tools/list",
          params := { name := "", arguments := { text := "" }, provider := none } }).1).Nodup := by
  have h := claim_c6_list_roundtrip stubGenEnv
    [anonymizePiiTool, redactFinancialTool, redactMedicalTool, generalSanitizeTool]
    { name := "", arguments := { text := "" }, provider := none } (by decide)
  exact ⟨h.1, by rw [h.2.1]; decide, h.2.2⟩

/-- Generation calls within an execution trace. -/
def isGenerationCall : ExecEvent → Bool
  | ExecEvent.openaiCall _ => true
  | ExecEvent.geminiCall _ => true
  | ExecEvent.executorInvoked _ _ => false

/-- Every entry of the static prompt mapping is a nonempty instruction. -/
theorem systemPrompts_lookup_nonempty (nm p : String)
    (hp : systemPrompts.lookup nm = some p) : p ≠ "" := by
  simp only [systemPrompts, List.lookup] at hp
  split at hp
  · injection hp with h; subst h; decide
  · split at hp
    · injection hp with h; subst h; decide
    · split at hp
      · injection hp with h; subst h; decide
      · split at hp
        · injection hp with h; subst h; decide
        · cases hp

/-- Claim C8: with the openai provider configured, one invocation of the
executor issues exactly one outbound generation call, whose system message
is the static mapping entry for the tool name when one exists and the
general sanitize instruction otherwise; a generation failure propagates
unchanged as the executor outcome (no retry, no fallback result). -/
theorem claim_c8_executor_single_call (env : GenEnv) (tool : Tool) (args : CallArguments)
    (h : env.openaiConfigured = true) :
    ((executeTool env tool args "openai").2.filter isGenerationCall =
      [ExecEvent.openaiCall
        { model := "gpt-3.5-turbo",
          messages := [{ role := "system", content := resolveSystemPrompt tool.name },
                       { role := "user", content := args.text }] }])
    ∧ (∀ p, systemPrompts.lookup tool.name = some p → resolveSystemPrompt tool.name = p)
    ∧ (systemPrompts.lookup tool.name = none → resolveSystemPrompt tool.name = generalSanitizePrompt)
    ∧ (∀ e, (generateText env "openai" [{ role := "user", content := args.text }]
          (some (resolveSystemPrompt tool.name))).1 = Except.error e →
        (executeTool env tool args "openai").1 = Except.error e) := by
  refine ⟨?_, ?_, ?_, ?_⟩
  · simp [executeTool, generateText, h, isGenerationCall]
  · intro p hp
    have hne := systemPrompts_lookup_nonempty tool.name p hp
    simp [resolveSystemPrompt, hp, jsOr, hne]
  · intro hp
    simp [resolveSystemPrompt, hp, jsOr]
  · intro e he
    simp [executeTool, he]

theorem claim_c8_witness :
    ((executeTool stubGenEnv redactMedicalTool { text := "patient data" } "openai").2.filter
        isGenerationCall =
      [ExecEvent.openaiCall
        { model := "gpt-3.5-turbo",
          messages := [{ role := "system", content := redactMedicalPrompt },
                       { role := "user", content := "patient data" }] }])
    ∧ (resolveSystemPrompt "redact_medical" = redactMedicalPrompt) := by
  have h := claim_c8_executor_single_call stubGenEnv redactMedicalTool { text := "patient data" } rfl
  exact ⟨h.1, h.2.1 redactMedicalPrompt rfl⟩

/-- Stub generation environment whose openai calls return a fixed chat
completion. -/
def chatRespEnv (resp : ChatCompletion) : GenEnv :=
  { openaiConfigured := true, geminiConfigured := true,
    openaiChat := fun _ => Except.ok resp,
    geminiGenerate := fun _ => Except.ok "" }

/-- Claim C10: when the generation response carries no message content
(no choices, or an absent or empty content field), generateText returns
success with the empty string, executeTool returns success with an empty
sanitizedText, and the tools/call response is a result (not an error)
carrying the empty sanitizedText, whatever the input text was. -/
theorem claim_c10_empty_content (tools : List Tool) (tool : Tool) (p : CallParams)
    (resp : ChatCompletion)
    (hfind : tools.find? (fun t => t.name == p.name) = some tool)
    (hprov : p.provider = none)
    (hempty : (resp.choices.head?.bind fun c => c.message.content) = none
      ∨ (resp.choices.head?.bind fun c => c.message.content) = some "") :
    ((generateText (chatRespEnv resp) "openai" [{ role := "user", content := p.arguments.text }]
        (some (resolveSystemPrompt tool.name))).1 = Except.ok "")
    ∧ ((executeTool (chatRespEnv resp) tool p.arguments "openai").1 =
        Except.ok { sanitizedText := "" })
    ∧ ((handleRequest (chatRespEnv resp) tools { method := "tools/call", params := p }).1 =
        { result := some (McpResult.toolResult { sanitizedText := "" }), error := none }) := by
  have hgen : (generateText (chatRespEnv resp) "openai"
      [{ role := "user", content := p.arguments.text }]
      (some (resolveSystemPrompt tool.name))).1 = Except.ok "" := by
    rcases hempty with hempty | hempty <;> simp [generateText, chatRespEnv, hempty, jsOr]
  have hexec : (executeTool (chatRespEnv resp) tool p.arguments "openai").1 =
      Except.ok { sanitizedText := "" } := by
    simp [executeTool, hgen]
  refine ⟨hgen, hexec, ?_⟩
  simp [handleRequest, hfind, hprov, hexec]

theorem claim_c10_witness :
    ((executeTool (chatRespEnv { choices := [] }) anonymizePiiTool
        { text := "John Smith, email: john@x.com" } "openai").1 =
      Except.ok { sanitizedText := "" })
    ∧ ((handleRequest (chatRespEnv { choices := [] }) registeredTools
        { method := "tools/call",
          params := { name := "anonymize_pii",
                      arguments := { text := "John Smith, email: john@x.com" },
                      provider := none } }).1 =
        { result := some (McpResult.toolResult { sanitizedText := "" }), error := none }) := by
  have h := claim_c10_empty_content registeredTools anonymizePiiTool
    { name := "anonymize_pii", arguments := { text := "John Smith, email: john@x.com" },
      provider := none }
    { choices := [] } (by decide) rfl (Or.inl rfl)
  exact ⟨h.2.1, h.2.2⟩

/-- ToolList returned by McpLikeClient.listTools. -/
structure ToolList where
  tools : List ToolDescriptor
  deriving DecidableEq

/-- Abstract stand-in for a parsed JSON value: the pipeline passes it
through to the tool call without inspecting it. -/
structure JsonValue where
  raw : String
  deriving DecidableEq

/-- ToolCall from src/mcp/types.ts: the decision output handed to
McpLikeClient.callTool. -/
structure ToolCall where
  name : String
  arguments : JsonValue
  deriving DecidableEq

/-- Tool definition sent with the selection request. Only name and
description vary between tools; the fixed parameters literal of the source
is elided. -/
structure OaFnDef where
  name : String
  description : String
  deriving DecidableEq

structure OaToolDef where
  function : OaFnDef
  deriving DecidableEq

/-- The observable part of the selection request. -/
structure LlmRequest where
  model : String
  messages : List ChatMsg
  tools : List OaToolDef
  tool_choice : String
  deriving DecidableEq

/-- Flow input (inputSchema of sanitize-text-with-mcp.ts). -/
structure FlowInput where
  text : String
  sanitizationRequest : String
  deriving DecidableEq

/-- Flow output (outputSchema of sanitize-text-with-mcp.ts). It has no
modelUsed field. -/
structure FlowOutput where
  sanitizedText : String
  toolUsed : String
  deriving DecidableEq

/-- External collaborators of one end-to-end run, as oracles: the MCP
client connect and listTools calls, the selection model, JSON parsing of
the returned argument string, and the dispatched tool call. -/
structure FlowEnv where
  connect : Except String Unit
  listTools : Except String ToolList
  llm : LlmRequest → Except String ChatCompletion
  jsonParse : String → Except String JsonValue
  callTool : ToolCall → Except String ToolResult

def selectionSystemMsg : String :=
  "You are an assistant that picks exactly ONE tool from the list below to satisfy the user\x27s request."

/-- User message of the selection request: intent, a 200-character prefix
of the input text, and the tool catalog rendered as name: description
lines. -/
def selectionUserMsg (raw : FlowInput) (toolList : ToolList) : String :=
  "User request: \"" ++ raw.sanitizationRequest ++ "\"\nUser text (first 200 chars): \""
    ++ raw.text.take 200 ++ "\"\n\nAvailable tools:\n"
    ++ String.intercalate "\n"
        (toolList.tools.map fun t => " - " ++ t.name ++ ": " ++ t.description)
    ++ "\n\nCall the best tool once and return its result."

def mkLlmRequest (raw : FlowInput) (toolList : ToolList) : LlmRequest :=
  { model := "gpt-3.5-turbo",
    messages := [{ role := "system", content := selectionSystemMsg },
                 { role := "user", content := selectionUserMsg raw toolList }],
    tools := toolList.tools.map fun t =>
      { function := { name := t.name, description := t.description } },
    tool_choice := "required" }

/-- The optional-chain `llmResp.choices[0]?.message?.tool_calls?.[0]`. -/
def firstToolCall (resp : ChatCompletion) : Option OaToolCall :=
  resp.choices.head?.bind fun c => c.message.tool_calls.head?

/-- Observable record of one run: progress steps emitted in order, tool
calls dispatched to the server, and the outcome. -/
structure FlowRun where
  events : List String
  toolCalls : List ToolCall
  outcome : Except String FlowOutput
  deriving DecidableEq

/-- sanitizeTextWithMCP (src/ai/flows/sanitize-text-with-mcp.ts): connect,
list tools, ask the model to select one tool, then call the selected tool,
emitting the fixed step names around the phases; a failure at any point
aborts the run with that failure as the outcome. Each branch records the
steps emitted before the failure point. -/
def sanitizeTextWithMCP (env : FlowEnv) (raw : FlowInput) : FlowRun :=
  match env.connect with
  | Except.error e =>
      { events := ["mcp_connect_start"], toolCalls := [], outcome := Except.error e }
  | Except.ok _ =>
    match env.listTools with
    | Except.error e =>
        { events := ["mcp_connect_start", "mcp_connect_finish", "list_tools"],
          toolCalls := [], outcome := Except.error e }
    | Except.ok toolList =>
      match env.llm (mkLlmRequest raw toolList) with
      | Except.error e =>
          { events := ["mcp_connect_start", "mcp_connect_finish", "list_tools", "select_tool"],
            toolCalls := [], outcome := Except.error e }
      | Except.ok llmResp =>
        match firstToolCall llmResp with
        | none =>
            { events := ["mcp_connect_start", "mcp_connect_finish", "list_tools", "select_tool"],
              toolCalls := [], outcome := Except.error "Model did not call a tool" }
        | some call =>
          match env.jsonParse call.function.arguments with
          | Except.error e =>
              { events := ["mcp_connect_start", "mcp_connect_finish", "list_tools",
                           "select_tool", "tool_exec_start"],
                toolCalls := [], outcome := Except.error e }
          | Except.ok args =>
            match env.callTool { name := call.function.name, arguments := args } with
            | Except.error e =>
                { events := ["mcp_connect_start", "mcp_connect_finish", "list_tools",
                             "select_tool", "tool_exec_start"],
                  toolCalls := [{ name := call.function.name, arguments := args }],
                  outcome := Except.error e }
            | Except.ok result =>
                { events := ["mcp_connect_start", "mcp_connect_finish", "list_tools",
                             "select_tool", "tool_exec_start", "tool_exec_finish"],
                  toolCalls := [{ name := call.function.name, arguments := args }],
                  outcome := Except.ok
                    { sanitizedText := result.sanitizedText, toolUsed := call.function.name } }

/-- Terminal payload type declared by getSanitizedTextStreamAction. The
declared result shape includes modelUsed; the flow output carries no such
field, so the value read from it is undefined, modelled as none. -/
structure StreamResult where
  sanitizedText : String
  toolUsed : String
  modelUsed : Option String
  deriving DecidableEq

inductive StreamEvent where
  | step (s : String)
  | result (r : StreamResult)
  | error (msg : String)
  deriving DecidableEq

def isTerminalEvent : StreamEvent → Bool
  | StreamEvent.step _ => false
  | _ => true

/-- getSanitizedTextStreamAction (src/app/actions.ts): forward each progress
step into the stream, then close it with the flow result, or with the error
message when the flow rejects. -/
def getSanitizedTextStreamAction (env : FlowEnv) (raw : FlowInput) : List StreamEvent :=
  let run := sanitizeTextWithMCP env raw
  run.events.map StreamEvent.step ++
    [match run.outcome with
     | Except.ok o => StreamEvent.result
         { sanitizedText := o.sanitizedText, toolUsed := o.toolUsed, modelUsed := none }
     | Except.error m => StreamEvent.error m]

/-- The six fixed step names, in order. -/
def pipelineSteps : List String :=
  ["mcp_connect_start", "mcp_connect_finish", "list_tools",
   "select_tool", "tool_exec_start", "tool_exec_finish"]

/-- Claim C3: a successful run emits the six step events in exact order
followed by one terminal result event; a failing run emits a strict prefix
of the six steps followed by one terminal error event; every run has
exactly one terminal event, so no run carries both a result and an error. -/
theorem claim_c3_stream_shape (env : FlowEnv) (raw : FlowInput) :
    (∀ o, (sanitizeTextWithMCP env raw).outcome = Except.ok o →
      getSanitizedTextStreamAction env raw =
        pipelineSteps.map StreamEvent.step ++
          [StreamEvent.result
            { sanitizedText := o.sanitizedText, toolUsed := o.toolUsed, modelUsed := none }])
    ∧ (∀ m, (sanitizeTextWithMCP env raw).outcome = Except.error m →
        ∃ k, k < 6 ∧ getSanitizedTextStreamAction env raw =
          (pipelineSteps.take k).map StreamEvent.step ++ [StreamEvent.error m])
    ∧ (getSanitizedTextStreamAction env raw).countP isTerminalEvent = 1 := by
  rcases hc : env.connect with e | u
  · refine ⟨fun o ho => ?_, fun m hm => ?_, ?_⟩
    · simp [sanitizeTextWithMCP, hc] at ho
    · simp only [sanitizeTextWithMCP, hc] at hm
      injection hm with h
      exact ⟨1, by decide, by simp [getSanitizedTextStreamAction, sanitizeTextWithMCP, hc,
        pipelineSteps, h]⟩
    · simp [getSanitizedTextStreamAction, sanitizeTextWithMCP, hc, isTerminalEvent]
  · rcases hl : env.listTools with e | toolList
    · refine ⟨fun o ho => ?_, fun m hm => ?_, ?_⟩
      · simp [sanitizeTextWithMCP, hc, hl] at ho
      · simp only [sanitizeTextWithMCP, hc, hl] at hm
        injection hm with h
        exact ⟨3, by decide, by simp [getSanitizedTextStreamAction, sanitizeTextWithMCP, hc, hl,
          pipelineSteps, h]⟩
      · simp [getSanitizedTextStreamAction, sanitizeTextWithMCP, hc, hl, isTerminalEvent]
    · rcases hllm : env.llm (mkLlmRequest raw toolList) with e | llmResp
      · refine ⟨fun o ho => ?_, fun m hm => ?_, ?_⟩
        · simp [sanitizeTextWithMCP, hc, hl, hllm] at ho
        · simp only [sanitizeTextWithMCP, hc, hl, hllm] at hm
          injection hm with h
          exact ⟨4, by decide, by simp [getSanitizedTextStreamAction, sanitizeTextWithMCP, hc,
            hl, hllm, pipelineSteps, h]⟩
        · simp [getSanitizedTextStreamAction, sanitizeTextWithMCP, hc, hl, hllm, isTerminalEvent]
      · rcases hcall : firstToolCall llmResp with _ | call
        · refine ⟨fun o ho => ?_, fun m hm => ?_, ?_⟩
          · simp [sanitizeTextWithMCP, hc, hl, hllm, hcall] at ho
          · simp only [sanitizeTextWithMCP, hc, hl, hllm, hcall] at hm
            injection hm with h
            exact ⟨4, by decide, by simp [getSanitizedTextStreamAction, sanitizeTextWithMCP, hc,
              hl, hllm, hcall, pipelineSteps, h]⟩
          · simp [getSanitizedTextStreamAction, sanitizeTextWithMCP, hc, hl, hllm, hcall,
              isTerminalEvent]
        · rcases hjp : env.jsonParse call.function.arguments with e | args
          · refine ⟨fun o ho => ?_, fun m hm => ?_, ?_⟩
            · simp [sanitizeTextWithMCP, hc, hl, hllm, hcall, hjp] at ho
            · simp only [sanitizeTextWithMCP, hc, hl, hllm, hcall, hjp] at hm
              injection hm with h
              exact ⟨5, by decide, by simp [getSanitizedTextStreamAction, sanitizeTextWithMCP,
                hc, hl, hllm, hcall, hjp, pipelineSteps, h]⟩
            · simp [getSanitizedTextStreamAction, sanitizeTextWithMCP, hc, hl, hllm, hcall, hjp,
                isTerminalEvent]
          · rcases hct : env.callTool { name := call.function.name, arguments := args } with e | r
            · refine ⟨fun o ho => ?_, fun m hm => ?_, ?_⟩
              · simp [sanitizeTextWithMCP, hc, hl, hllm, hcall, hjp, hct] at ho
              · simp only [sanitizeTextWithMCP, hc, hl, hllm, hcall, hjp, hct] at hm
                injection hm with h
                exact ⟨5, by decide, by simp [getSanitizedTextStreamAction, sanitizeTextWithMCP,
                  hc, hl, hllm, hcall, hjp, hct, pipelineSteps, h]⟩
              · simp [getSanitizedTextStreamAction, sanitizeTextWithMCP, hc, hl, hllm, hcall,
                  hjp, hct, isTerminalEvent]
            · refine ⟨fun o ho => ?_, fun m hm => ?_, ?_⟩
              · simp only [sanitizeTextWithMCP, hc, hl, hllm, hcall, hjp, hct] at ho
                injection ho with h
                simp [getSanitizedTextStreamAction, sanitizeTextWithMCP, hc, hl, hllm, hcall,
                  hjp, hct, pipelineSteps, ← h]
              · simp [sanitizeTextWithMCP, hc, hl, hllm, hcall, hjp, hct] at hm
              · simp [getSanitizedTextStreamAction, sanitizeTextWithMCP, hc, hl, hllm, hcall,
                  hjp, hct, isTerminalEvent]

/-- Sample catalog: the descriptors of the four registered tools. -/
def sampleToolList : ToolList := { tools := registeredTools.map Tool.descriptor }

/-- Environment of a fully successful run in which the model selects
anonymize_pii. -/
def anonymizeCallResp : ChatCompletion :=
  { choices :=
      [{ message :=
          { content := none,
            tool_calls :=
              [{ function :=
                  { name := "anonymize_pii",
                    arguments := "\x7b\"text\":\"John\"\x7d" } }] } }] }

def flowEnvOk : FlowEnv :=
  { connect := Except.ok (),
    listTools := Except.ok sampleToolList,
    llm := fun _ => Except.ok anonymizeCallResp,
    jsonParse := fun s => Except.ok { raw := s },
    callTool := fun _ => Except.ok { sanitizedText := "[NAME], email: [EMAIL]" } }

def sampleInput : FlowInput :=
  { text := "John Smith, email: john@x.com", sanitizationRequest := "Anonymize PII" }

theorem claim_c3_witness :
    getSanitizedTextStreamAction flowEnvOk sampleInput =
      pipelineSteps.map StreamEvent.step ++
        [StreamEvent.result { sanitizedText := "[NAME], email: [EMAIL]",
                              toolUsed := "anonymize_pii", modelUsed := none }] :=
  (claim_c3_stream_shape flowEnvOk sampleInput).1
    { sanitizedText := "[NAME], email: [EMAIL]", toolUsed := "anonymize_pii" } rfl

/-- Environment identical to flowEnvOk except that the selection model
returns zero tool invocations. -/
def flowEnvNoCall : FlowEnv :=
  { connect := Except.ok (),
    listTools := Except.ok sampleToolList,
    llm := fun _ => Except.ok
      { choices := [{ message := { content := some "no tool", tool_calls := [] } }] },
    jsonParse := fun s => Except.ok { raw := s },
    callTool := fun _ => Except.ok { sanitizedText := "X" } }

/-- Claim C5 counterexample: with zero invocations the flow does reject
without choosing a tool, but the decision error message is
Model did not call a tool, not the claimed model did not select a tool. -/
theorem claim_c5_counterexample :
    ((sanitizeTextWithMCP flowEnvNoCall sampleInput).outcome =
      Except.error "Model did not call a tool")
    ∧ ((sanitizeTextWithMCP flowEnvNoCall sampleInput).outcome ≠
      Except.error "model did not select a tool")
    ∧ (sanitizeTextWithMCP flowEnvNoCall sampleInput).toolCalls = [] := by
  refine ⟨rfl, by decide, rfl⟩

/-- Selection-phase environment: connect and listTools succeed and the
model answers with a fixed completion. -/
def mkSelectionEnv (tl : ToolList) (resp : ChatCompletion)
    (jp : String → Except String JsonValue)
    (ct : ToolCall → Except String ToolResult) : FlowEnv :=
  { connect := Except.ok (), listTools := Except.ok tl,
    llm := fun _ => Except.ok resp, jsonParse := jp, callTool := ct }

/-- Claim C5 (amended): when the selection call returns zero tool
invocations the flow rejects with the decision error message
Model did not call a tool and dispatches no tool call, so no tool is chosen
by default; when it returns one or more invocations, exactly the first
invocation of the first choice is honored: the single dispatched tool call
names that first invocation. -/
theorem claim_c5_selection (tl : ToolList) (resp : ChatCompletion)
    (jp : String → Except String JsonValue) (ct : ToolCall → Except String ToolResult)
    (raw : FlowInput) :
    (firstToolCall resp = none →
      (sanitizeTextWithMCP (mkSelectionEnv tl resp jp ct) raw).outcome =
        Except.error "Model did not call a tool"
      ∧ (sanitizeTextWithMCP (mkSelectionEnv tl resp jp ct) raw).toolCalls = [])
    ∧ (∀ call args, firstToolCall resp = some call →
        jp call.function.arguments = Except.ok args →
        (sanitizeTextWithMCP (mkSelectionEnv tl resp jp ct) raw).toolCalls =
          [{ name := call.function.name, arguments := args }]) := by
  constructor
  · intro h
    constructor <;> simp [sanitizeTextWithMCP, mkSelectionEnv, h]
  · intro call args hcall hjp
    rcases hct : ct { name := call.function.name, arguments := args } with e | r <;>
      simp [sanitizeTextWithMCP, mkSelectionEnv, hcall, hjp, hct]

/-- A completion carrying two tool invocations, redact_financial first. -/
def multiCallResp : ChatCompletion :=
  { choices := [{ message := { content := none, tool_calls :=
      [{ function := { name := "redact_financial", arguments := "\x7b\x7d" } },
       { function := { name := "anonymize_pii", arguments := "\x7b\x7d" } }] } }] }

theorem claim_c5_witness :
    (sanitizeTextWithMCP
        (mkSelectionEnv sampleToolList multiCallResp (fun s => Except.ok { raw := s })
          (fun _ => Except.ok { sanitizedText := "R" })) sampleInput).toolCalls =
      [{ name := "redact_financial", arguments := { raw := "\x7b\x7d" } }] :=
  (claim_c5_selection sampleToolList multiCallResp (fun s => Except.ok { raw := s })
      (fun _ => Except.ok { sanitizedText := "R" }) sampleInput).2
    { function := { name := "redact_financial", arguments := "\x7b\x7d" } }
    { raw := "\x7b\x7d" } rfl rfl

/-- Claim C7: evaluating a successful run shows the terminal result event
carries sanitizedText and the selected tool name but its modelUsed is
undefined (none), because the flow output has no modelUsed field even
though the declared stream type and the consuming page expect one. -/
theorem claim_c7_terminal_missing_model_used :
    (getSanitizedTextStreamAction flowEnvOk sampleInput).getLast? =
      some (StreamEvent.result { sanitizedText := "[NAME], email: [EMAIL]",
                                 toolUsed := "anonymize_pii", modelUsed := none }) := by
  decide

/-- JS whitespace test (the common characters; the exotic unicode space
characters also matched by the regex class are not produced here). -/
def isJsWhitespace (c : Char) : Bool :=
  c = ' ' || c = '\n' || c = '\t' || c = '\r' || c = '\x0b' || c = '\x0c'

def skipWs : List Char → List Char
  | [] => []
  | c :: rest => if isJsWhitespace c then skipWs rest else c :: rest

/-- After a candidate closing brace: optional whitespace then a closing
code fence. -/
def fenceTailOk (cs : List Char) : Bool :=
  "```".data.isPrefixOf (skipWs cs)

/-- Scan for the lazily-first closing brace whose tail closes the fence,
accumulating the group seen so far. -/
def scanClose : List Char → List Char → Option String
  | _, [] => none
  | acc, c :: rest =>
    if c = '\x7d' && fenceTailOk rest then some (String.mk (acc ++ [c]))
    else scanClose (acc ++ [c]) rest

/-- Attempt the fenced-JSON pattern just after a three-backtick json
opener: optional whitespace, then a brace-opened group ending at the first
closing brace followed by optional whitespace and a closing fence. -/
def matchFenceAt (cs : List Char) : Option String :=
  match skipWs cs with
  | [] => none
  | c :: rest => if c = '\x7b' then scanClose [c] rest else none

/-- First match of the fenced-JSON regex, trying start positions left to
right as the regex engine does. -/
def extractFencedJson : List Char → Option String
  | [] => none
  | c :: rest =>
    if "```json".data.isPrefixOf (c :: rest) then
      match matchFenceAt ((c :: rest).drop 7) with
      | some s => some s
      | none => extractFencedJson rest
    else extractFencedJson rest

/-- Drop the characters before the first opening brace (text.indexOf). -/
def firstBraceSuffix : List Char → Option (List Char)
  | [] => none
  | c :: rest => if c = '\x7b' then some (c :: rest) else firstBraceSuffix rest

/-- The fallback brace-count scan: starting at the first opening brace,
increment on opening and decrement on closing braces, stopping at the
character where the count returns to zero; no match when it never does. -/
def braceScan : Nat → List Char → List Char → Option String
  | _, _, [] => none
  | count, acc, c :: rest =>
    let count2 := if c = '\x7b' then count + 1 else if c = '\x7d' then count - 1 else count
    if count2 = 0 then some (String.mk (acc ++ [c]))
    else braceScan count2 (acc ++ [c]) rest

def findBalancedJson (cs : List Char) : Option String :=
  match firstBraceSuffix cs with
  | none => none
  | some suffix => braceScan 0 [] suffix

/-- Resolution of jsonStr: the fenced pattern first, else the balanced
brace scan; the result is what is handed to JSON.parse. -/
def jsonCandidate (text : String) : Option String :=
  match extractFencedJson text.data with
  | some s => some s
  | none => findBalancedJson text.data

/-- The hardcoded tool-name alternation of the final fallback. -/
def knownToolNames : List String :=
  ["anonymize_pii", "redact_financial", "redact_medical", "general_sanitize"]

/-- First regex match of the tool-name alternation: positions left to
right, alternatives in order at each position. -/
def findKnownToolName : List Char → Option String
  | [] => none
  | c :: rest =>
    match knownToolNames.find? (fun n => n.data.isPrefixOf (c :: rest)) with
    | some n => some n
    | none => findKnownToolName rest

/-- Outcome of JSON.parse on the candidate string, as read by the adapter:
the tool field of the parsed value (none when absent) and the
JSON.stringify image of its arguments field (none when absent). JSON.parse
throwing is modelled by the oracle returning none overall. -/
structure ParsedJson where
  tool : Option String
  argumentsJson : Option String
  deriving DecidableEq

structure GeminiFnCall where
  name : Option String
  arguments : String
  deriving DecidableEq

structure GeminiToolCallOut where
  function : GeminiFnCall
  deriving DecidableEq

structure GeminiMsgOut where
  tool_calls : List GeminiToolCallOut
  deriving DecidableEq

structure GeminiChoiceOut where
  message : GeminiMsgOut
  deriving DecidableEq

/-- The openai-compatible response shape the gemini branch fabricates. -/
structure GeminiToolsResponse where
  choices : List GeminiChoiceOut
  deriving DecidableEq

def mkGeminiToolsResponse (n : Option String) (args : String) : GeminiToolsResponse :=
  { choices := [{ message := { tool_calls := [{ function := { name := n, arguments := args } }] } }] }

/-- JSON string escaping used when the fallback stringifies the user text
(quote, backslash and the common control characters). -/
def jsonEscape (s : String) : String :=
  String.mk (s.data.foldr (fun c acc =>
    if c = '"' then '\\' :: '"' :: acc
    else if c = '\\' then '\\' :: '\\' :: acc
    else if c = '\n' then '\\' :: 'n' :: acc
    else if c = '\r' then '\\' :: 'r' :: acc
    else if c = '\t' then '\\' :: 't' :: acc
    else c :: acc) [])

/-- JSON.stringify of the one-field object wrapping the user text. -/
def jsonStringifyTextObj (s : String) : String :=
  "\x7b\"text\":\"" ++ jsonEscape s ++ "\"\x7d"

/-- The instruction tail asking gemini for a single JSON-encoded tool
invocation. -/
def geminiFormatInstruction : String :=
  "\n\nPlease respond with ONLY the tool name and parameters in this exact JSON format: \x7b\"tool\": \"tool_name\", \"arguments\": \x7b\"text\": \"user_text\"\x7d\x7d"

/-- The prompt assembled by the gemini branch of
ModelManager.generateWithTools. -/
def geminiToolsPrompt (messages : List ChatMsg) (tools : List OaToolDef) : String :=
  let toolDescriptions := String.intercalate "\n"
    (tools.map fun t => "- " ++ t.function.name ++ ": " ++ t.function.description)
  let userMessage := jsOr ((messages.find? fun m => m.role == "user").map ChatMsg.content) ""
  let systemMessage := jsOr ((messages.find? fun m => m.role == "system").map ChatMsg.content) ""
  systemMessage ++ "\n\n" ++ userMessage ++ "\n\nAvailable tools:\n" ++ toolDescriptions
    ++ geminiFormatInstruction

/-- The gemini case of ModelManager.generateWithTools (src/lib/models.ts):
build a textual prompt from the system and user messages and the tool
catalog, call the gemini capability once, then try in order a fenced JSON
block, a balanced brace span, and the hardcoded tool-name pattern; a
parsed object is wrapped into an openai-shaped response; when JSON.parse
throws, or nothing matched, the branch throws
Failed to parse Gemini response. -/
def generateWithToolsGemini (env : GenEnv)
    (jsonParse : String → Option ParsedJson)
    (messages : List ChatMsg) (tools : List OaToolDef) :
    Except String GeminiToolsResponse :=
  if env.geminiConfigured = false then Except.error "Gemini not configured"
  else
    let userMessage := jsOr ((messages.find? fun m => m.role == "user").map ChatMsg.content) ""
    match env.geminiGenerate (geminiToolsPrompt messages tools) with
    | Except.error e => Except.error e
    | Except.ok text =>
      match jsonCandidate text with
      | some jsonStr =>
        match jsonParse jsonStr with
        | some parsed =>
            Except.ok (mkGeminiToolsResponse parsed.tool
              (match parsed.argumentsJson with
               | some a => a
               | none => "\x7b\x7d"))
        | none => Except.error ("Failed to parse Gemini response: " ++ text)
      | none =>
        match findKnownToolName text.data with
        | some tn =>
            Except.ok (mkGeminiToolsResponse (some tn) (jsonStringifyTextObj userMessage))
        | none => Except.error ("Failed to parse Gemini response: " ++ text)

/-- Gemini environment answering every generation request with a fixed
text. -/
def geminiTextEnv (text : String) : GenEnv :=
  { openaiConfigured := true, geminiConfigured := true,
    openaiChat := fun _ => Except.error "unused",
    geminiGenerate := fun _ => Except.ok text }

/-- Claim C9 (amended): for every text output of the gemini backend the
adapter resolves a candidate structure, preferring a fenced JSON block and
otherwise taking the first balanced brace-bounded span; a candidate that
JSON.parse rejects, or the absence of both a candidate and a known tool
name in the text, yields the raised decision error
Failed to parse Gemini response and never a crash (the adapter is total);
but a successfully parsed object is wrapped into a structured invocation
carrying its tool field without any validation against the registered
tools, so the invocation may name an unregistered tool; with no candidate,
a known tool name occurring in the text is wrapped together with the
stringified user message. -/
theorem claim_c9_gemini_parse (jsonParse : String → Option ParsedJson)
    (messages : List ChatMsg) (tools : List OaToolDef) (text : String) :
    (∀ s, jsonCandidate text = some s → jsonParse s = none →
      generateWithToolsGemini (geminiTextEnv text) jsonParse messages tools =
        Except.error ("Failed to parse Gemini response: " ++ text))
    ∧ (∀ s p, jsonCandidate text = some s → jsonParse s = some p →
        generateWithToolsGemini (geminiTextEnv text) jsonParse messages tools =
          Except.ok (mkGeminiToolsResponse p.tool
            (match p.argumentsJson with
             | some a => a
             | none => "\x7b\x7d")))
    ∧ (jsonCandidate text = none → findKnownToolName text.data = none →
        generateWithToolsGemini (geminiTextEnv text) jsonParse messages tools =
          Except.error ("Failed to parse Gemini response: " ++ text))
    ∧ (∀ tn, jsonCandidate text = none → findKnownToolName text.data = some tn →
        generateWithToolsGemini (geminiTextEnv text) jsonParse messages tools =
          Except.ok (mkGeminiToolsResponse (some tn)
            (jsonStringifyTextObj
              (jsOr ((messages.find? fun m => m.role == "user").map ChatMsg.content) "")))) := by
  refine ⟨?_, ?_, ?_, ?_⟩
  · intro s hs hp
    simp [generateWithToolsGemini, geminiTextEnv, hs, hp]
  · intro s p hs hp
    simp [generateWithToolsGemini, geminiTextEnv, hs, hp]
  · intro hs ht
    simp [generateWithToolsGemini, geminiTextEnv, hs, ht]
  · intro tn hs ht
    simp [generateWithToolsGemini, geminiTextEnv, hs, ht]

/-- A gemini output naming a tool that is not in the registry. -/
def bogusToolText : String := "\x7b\"tool\": \"bogus\", \"arguments\": \x7b\x7d\x7d"

/-- JSON.parse stub, faithful at the single input it is queried on. -/
def jsonParseStub (s : String) : Option ParsedJson :=
  if s = bogusToolText then some { tool := some "bogus", argumentsJson := some "\x7b\x7d" }
  else none

/-- Claim C9 counterexample: on a gemini output whose parsed object names a
tool absent from the offered catalog and from the server registry, the
adapter returns a structured invocation naming that unregistered tool
instead of raising a validation error. -/
theorem claim_c9_counterexample :
    (generateWithToolsGemini (geminiTextEnv bogusToolText) jsonParseStub
        [{ role := "user", content := "hello" }]
        (sampleToolList.tools.map fun t =>
          { function := { name := t.name, description := t.description } }) =
      Except.ok (mkGeminiToolsResponse (some "bogus") "\x7b\x7d"))
    ∧ ("bogus" ∉ sampleToolList.tools.map ToolDescriptor.name)
    ∧ ("bogus" ∉ registeredTools.map Tool.name) := by
  refine ⟨by decide, by decide, by decide⟩

theorem claim_c9_witness :
    generateWithToolsGemini (geminiTextEnv "no structured output") jsonParseStub
        [{ role := "user", content := "hello" }] [] =
      Except.error ("Failed to parse Gemini response: " ++ "no structured output") :=
  (claim_c9_gemini_parse jsonParseStub [{ role := "user", content := "hello" }] []
      "no structured output").2.2.1 rfl rfl

end SanitizeAI
